import Mathlib

/-!
Shallow embedding of the recipe-app repository: the data model of
`core.models` (not present under `src/`, so modelled from the spec),
the serializer logic of `src/app/recipe/serializers.py`, and the view
logic of `src/app/recipe/views.py`.  Machine-level framework behaviour
(Django ORM calls, DRF validation) is embedded as explicit functions on
an explicit store.
-/

namespace RecipeApp

/-- Modelled from the spec: `core.models.Tag` is not under `src/`.
Spec §3: a Tag is owned by exactly one User and has a name. Users are
identified by their unique identifier, embedded as a natural number. -/
structure Tag where
  id : Nat
  user : Nat
  name : String
deriving DecidableEq, Repr

/-- Modelled from the spec: `core.models.Ingredient` is not under `src/`.
Spec §3: an Ingredient is owned by exactly one User and has a name. -/
structure Ingredient where
  id : Nat
  user : Nat
  name : String
deriving DecidableEq, Repr

/-- Modelled from the spec: `core.models.Recipe` is not under `src/`.
Spec §3: a Recipe is owned by exactly one User and has title,
time_minutes, price (embedded as an integer number of cents), optional
description and link, and many-to-many association sets with Tags and
Ingredients; the association sets are embedded as the lists of the
associated row identifiers. -/
structure Recipe where
  id : Nat
  user : Nat
  title : String
  time_minutes : Nat
  price : Int
  description : String
  link : String
  tags : List Nat
  ingredients : List Nat
deriving DecidableEq, Repr

/-- The persistent state of the relational store: the three tables and
the identifier sequences the store assigns to new rows. -/
structure Store where
  recipes : List Recipe
  tags : List Tag
  ingredients : List Ingredient
  nextRecipeId : Nat
  nextTagId : Nat
  nextIngredientId : Nat
deriving DecidableEq, Repr

/-- The Python exceptions the embedded code can raise. -/
inductive PyError where
  | typeError
  | valueError
  | attributeError
deriving DecidableEq, Repr

/-- Outcome of a request-handling step that has side effects on the
store: either a value, or an unhandled Python exception together with
the store as it stands when the exception is raised (side effects
performed before the raise persist). -/
inductive PyResult (α : Type) where
  | ok : α → PyResult α
  | error : PyError → Store → PyResult α
deriving DecidableEq, Repr

/-- Embeds `Tag.objects.create(user=..., name=...)`: inserts a new Tag row
unconditionally and returns it. -/
def tagObjectsCreate (s : Store) (user : Nat) (name : String) : Tag × Store :=
  let t : Tag := ⟨s.nextTagId, user, name⟩
  (t, { s with tags := s.tags ++ [t], nextTagId := s.nextTagId + 1 })

/-- Embeds `Ingredient.objects.get_or_create(user=..., name=...)`: returns the
pair (object, created); the row is looked up by (user, name) and a new
row is inserted only when no row matches. -/
def ingredientGetOrCreate (s : Store) (user : Nat) (name : String) :
    (Ingredient × Bool) × Store :=
  match s.ingredients.find? (fun i => i.user == user && i.name == name) with
  | some i => ((i, false), s)
  | none =>
    let i : Ingredient := ⟨s.nextIngredientId, user, name⟩
    ((i, true),
     { s with ingredients := s.ingredients ++ [i],
              nextIngredientId := s.nextIngredientId + 1 })

/-- Embeds `recipe.tags.add(tag_obj)`: adds the association unless it is
already present (the many-to-many add of the ORM is idempotent). -/
def recipeTagsAdd (r : Recipe) (t : Tag) : Recipe :=
  if r.tags.contains t.id then r else { r with tags := r.tags ++ [t.id] }

/-- Writes the current state of a recipe row back into the store
(association writes and `instance.save()` both persist this way). -/
def storeUpdateRecipe (s : Store) (r : Recipe) : Store :=
  { s with recipes := s.recipes.map (fun x => if x.id == r.id then r else x) }

/-- Embeds `RecipeSerializer._get_or_create_tags` (serializers.py lines 29-38):
for each submitted tag name the code calls `Tag.objects.create` — it
never queries for an existing row — and adds the new row to the recipe
tag set. Each association write persists at once. -/
def getOrCreateTags (authUser : Nat) (tagNames : List String)
    (s : Store) (r : Recipe) : Store × Recipe :=
  match tagNames with
  | [] => (s, r)
  | name :: rest =>
    let created := tagObjectsCreate s authUser name
    let r1 := recipeTagsAdd r created.1
    getOrCreateTags authUser rest (storeUpdateRecipe created.2 r1) r1

/-- Embeds `RecipeSerializer._get_co_create_ingredients` (serializers.py lines
40-50): `Ingredient.objects.get_or_create` returns the pair
(object, created) and the code passes that pair itself to
`recipe.ingredients.add`; the related-manager add of the ORM raises
`TypeError` for an argument that is neither a model instance nor a
primary key, so the loop raises on its first element, after the
get-or-create lookup (and possible insert) has already run. -/
def getCoCreateIngredients (authUser : Nat) (ingredientNames : List String)
    (s : Store) (r : Recipe) : PyResult (Store × Recipe) :=
  match ingredientNames with
  | [] => .ok (s, r)
  | name :: _rest =>
    let (_pair, s1) := ingredientGetOrCreate s authUser name
    .error .typeError s1

/-- The validated data a create request hands to
`RecipeSerializer.create`: the scalar fields of Meta.fields plus
description (the viewset default serializer is the detail one), and the
two optional nested name lists. -/
structure CreatePayload where
  title : String
  time_minutes : Nat
  price : Int
  link : String
  description : String
  tags : Option (List String)
  ingredients : Option (List String)
deriving DecidableEq, Repr

/-- Embeds `Recipe.objects.create(**validated_data)` with the user added by
`perform_create` (views.py lines 60-62): inserts the recipe row with
empty association sets. -/
def recipeObjectsCreate (s : Store) (user : Nat) (p : CreatePayload) :
    Recipe × Store :=
  let r : Recipe := ⟨s.nextRecipeId, user, p.title, p.time_minutes, p.price,
                     p.description, p.link, [], []⟩
  (r, { s with recipes := s.recipes ++ [r], nextRecipeId := s.nextRecipeId + 1 })

/-- Embeds `RecipeSerializer.create` (serializers.py lines 60-74): pops tags
and ingredients (defaulting to the empty list), creates the recipe row
without associations, then runs the tag loop and the ingredient loop. -/
def serializerCreate (authUser : Nat) (p : CreatePayload) (s : Store) :
    PyResult (Store × Recipe) :=
  let tagNames := p.tags.getD []
  let ingredientNames := p.ingredients.getD []
  let (recipe, s1) := recipeObjectsCreate s authUser p
  let (s2, r2) := getOrCreateTags authUser tagNames s1 recipe
  getCoCreateIngredients authUser ingredientNames s2 r2

/-- The validated data a PATCH/PUT request hands to
`RecipeSerializer.update`: every field is optional. -/
structure UpdatePayload where
  title : Option String
  time_minutes : Option Nat
  price : Option Int
  link : Option String
  description : Option String
  tags : Option (List String)
  ingredients : Option (List String)
deriving DecidableEq, Repr

/-- The `setattr` loop of `RecipeSerializer.update` restricted to the
scalar attributes present in the validated data. -/
def setScalarAttrs (r : Recipe) (p : UpdatePayload) : Recipe :=
  { r with
    title := p.title.getD r.title
    time_minutes := p.time_minutes.getD r.time_minutes
    price := p.price.getD r.price
    link := p.link.getD r.link
    description := p.description.getD r.description }

/-- Embeds `RecipeSerializer.update` (serializers.py lines 76-87): pops tags
(default None); when provided, clears the tag association set and runs
the tag loop. Ingredients are never popped, so a provided ingredients
value stays in `validated_data` and the `setattr` loop assigns it to a
many-to-many attribute, which raises `TypeError` before
`instance.save()` runs; the already-persisted tag writes remain.
Otherwise the scalar attributes are set and the instance is saved. -/
def serializerUpdate (authUser : Nat) (inst : Recipe) (p : UpdatePayload)
    (s : Store) : PyResult (Store × Recipe) :=
  let cleared : Recipe := { inst with tags := [] }
  let step :=
    match p.tags with
    | some tagNames => getOrCreateTags authUser tagNames (storeUpdateRecipe s cleared) cleared
    | none => (s, inst)
  match p.ingredients with
  | some _ => .error .typeError step.1
  | none =>
    let inst2 := setScalarAttrs step.2 p
    .ok (storeUpdateRecipe step.1 inst2, inst2)

/-- A raw update request body as the client submits it, before DRF
validation: in particular it may carry a user (owner) value. -/
structure RawPayload where
  title : Option String
  time_minutes : Option Nat
  price : Option Int
  link : Option String
  description : Option String
  tags : Option (List String)
  ingredients : Option (List String)
  user : Option Nat
deriving DecidableEq, Repr

/-- DRF ModelSerializer validation for RecipeDetailSerializer:
`validated_data` holds exactly the declared writable fields
(Meta.fields minus read_only, serializers.py lines 52-58 and 90-93).
`user` is not among the declared fields, so a submitted user value is
dropped and never reaches `update`. -/
def toValidatedData (raw : RawPayload) : UpdatePayload :=
  { title := raw.title
    time_minutes := raw.time_minutes
    price := raw.price
    link := raw.link
    description := raw.description
    tags := raw.tags
    ingredients := raw.ingredients }

/-- The split of Python `qs.split(",")` over the character list, with
the accumulator holding the current token reversed. -/
def splitCommaAux : List Char → List Char → List (List Char)
  | [], acc => [acc.reverse]
  | c :: cs, acc =>
    if c = ',' then acc.reverse :: splitCommaAux cs []
    else splitCommaAux cs (c :: acc)

/-- Python `qs.split(",")`: the empty string splits to one empty token;
every comma separates tokens. -/
def pySplit (s : String) : List String :=
  (splitCommaAux s.data []).map String.mk

/-- Reads a nonempty all-digit suffix as a number; `none` as soon as a
non-digit appears. -/
def pyDigitsAux : List Char → Nat → Option Nat
  | [], acc => some acc
  | c :: cs, acc =>
    if c.isDigit then pyDigitsAux cs (acc * 10 + (c.toNat - 48)) else none

/-- Reads a nonempty string of decimal digits; `none` on the empty
list or on any non-digit character. -/
def pyDigits? : List Char → Option Nat
  | [] => none
  | cs => pyDigitsAux cs 0

/-- Strips leading and trailing whitespace. -/
def pyStrip (cs : List Char) : List Char :=
  ((cs.dropWhile Char.isWhitespace).reverse.dropWhile Char.isWhitespace).reverse

/-- Python `int(str)` on a decimal literal: surrounding whitespace is
stripped, one optional sign is allowed, then a nonempty digit string
(digit-group underscores and non-ASCII digits are not modelled);
`none` stands for `ValueError`. -/
def pyInt? (s : String) : Option Int :=
  match pyStrip s.data with
  | '+' :: rest => (pyDigits? rest).map Int.ofNat
  | '-' :: rest => (pyDigits? rest).map (fun n => -(Int.ofNat n))
  | cs => (pyDigits? cs).map Int.ofNat

/-- The list comprehension `[int(str_id) for str_id in qs.split(",")]`
evaluated left to right: the first failing conversion raises. -/
def intListComp : List String → Except PyError (List Int)
  | [] => .ok []
  | t :: ts =>
    match pyInt? t with
    | none => .error .valueError
    | some n =>
      match intListComp ts with
      | .ok l => .ok (n :: l)
      | .error e => .error e

/-- Embeds `RecipeViewSet._params_to_ints` (views.py lines 26-28). -/
def paramsToInts (qs : String) : Except PyError (List Int) :=
  intListComp (pySplit qs)

/-- A recipe list request: the authenticated user and the two optional
query parameters. -/
structure RecipeRequest where
  user : Nat
  tagsParam : Option String
  ingredientsParam : Option String
deriving DecidableEq, Repr

/-- The `if tags:` branch of `get_queryset`: `query_params.get` yields
None for an absent parameter, and both None and the empty string are
falsy, so only a nonempty parameter filters. -/
def applyTagFilter (recipes : List Recipe) (p : Option String) :
    Except PyError (List Recipe) :=
  match p with
  | none => .ok recipes
  | some t =>
    if t = "" then .ok recipes
    else
      match paramsToInts t with
      | .ok ids =>
        .ok (recipes.filter (fun r => r.tags.any (fun tid => ids.contains (Int.ofNat tid))))
      | .error e => .error e

/-- The `if ingredients:` branch of `get_queryset`, same shape as the
tag branch. -/
def applyIngredientFilter (recipes : List Recipe) (p : Option String) :
    Except PyError (List Recipe) :=
  match p with
  | none => .ok recipes
  | some t =>
    if t = "" then .ok recipes
    else
      match paramsToInts t with
      | .ok ids =>
        .ok (recipes.filter (fun r => r.ingredients.any (fun iid => ids.contains (Int.ofNat iid))))
      | .error e => .error e

/-- Descending order by a projected key: row `a` precedes row `b` when
the key of `b` is at most the key of `a`. -/
def descBy {α β : Type} [LinearOrder β] (f : α → β) (a b : α) : Prop :=
  f b ≤ f a

instance {α β : Type} [LinearOrder β] (f : α → β) : DecidableRel (descBy f) :=
  fun a b => inferInstanceAs (Decidable (f b ≤ f a))

instance {α β : Type} [LinearOrder β] (f : α → β) : IsTotal α (descBy f) :=
  ⟨fun a b => le_total (f b) (f a)⟩

instance {α β : Type} [LinearOrder β] (f : α → β) : IsTrans α (descBy f) :=
  ⟨fun _ _ _ h1 h2 => le_trans h2 h1⟩

/-- Embeds `RecipeViewSet.get_queryset` (views.py lines 30-46): apply the tag
filter, then the ingredient filter, then restrict to the requesting
user, order by descending id and deduplicate. -/
def recipeGetQueryset (s : Store) (req : RecipeRequest) :
    Except PyError (List Recipe) :=
  match applyTagFilter s.recipes req.tagsParam with
  | .error e => .error e
  | .ok q1 =>
    match applyIngredientFilter q1 req.ingredientsParam with
    | .error e => .error e
    | .ok q2 =>
      .ok (((q2.filter (fun r => r.user == req.user)).insertionSort
              (descBy Recipe.id)).dedup)

/-- Embeds `BaseRecipeAttrViewSet.get_queryset` for tags (views.py lines
85-87, used by TagViewSet): the rows of the requesting user ordered by
descending name. -/
def tagGetQueryset (s : Store) (u : Nat) : List Tag :=
  (s.tags.filter (fun t => t.user == u)).insertionSort (descBy (fun t => t.name.data))

/-- Embeds `BaseRecipeAttrViewSet.get_queryset` for ingredients (views.py
lines 85-87, used by IngredientViewSet). -/
def ingredientGetQueryset (s : Store) (u : Nat) : List Ingredient :=
  (s.ingredients.filter (fun i => i.user == u)).insertionSort (descBy (fun i => i.name.data))

/-- The detail-route object lookup of the viewset: `get_object` fetches
by primary key inside `get_queryset` (a detail request carries no
filter query parameters); `none` surfaces as NotFound (404). -/
def recipeGetObject (s : Store) (u : Nat) (pk : Nat) :
    Except PyError (Option Recipe) :=
  (recipeGetQueryset s ⟨u, none, none⟩).map (fun l => l.find? (fun r => r.id == pk))

/-- The serializer classes that `src/app/recipe/serializers.py`
actually defines. -/
inductive SerializerClass where
  | ingredientS
  | tagS
  | recipeS
  | recipeDetailS
deriving DecidableEq, Repr

/-- Attribute lookup on the `recipe.serializers` module: the four
classes the module defines, by name; any other attribute access raises
`AttributeError`. In particular the module defines no
RecipieImageSerializer. -/
def serializersModuleAttr : String → Option SerializerClass
  | "IngredientSerializer" => some .ingredientS
  | "TagSerializer" => some .tagS
  | "RecipeSerializer" => some .recipeS
  | "RecipeDetailSerializer" => some .recipeDetailS
  | _ => none

/-- Embeds `RecipeViewSet.get_serializer_class` (views.py lines 52-58):
the list action uses RecipeSerializer, the upload_image action reads
the attribute RecipieImageSerializer off the serializers module, and
every other action uses the class default (RecipeDetailSerializer). -/
def getSerializerClass (action : String) : Except PyError SerializerClass :=
  if action = "list" then .ok .recipeS
  else if action = "upload_image" then
    match serializersModuleAttr "RecipieImageSerializer" with
    | some c => .ok c
    | none => .error .attributeError
  else .ok .recipeDetailS

/-- The observable outcome of an image-upload request. -/
inductive UploadOutcome where
  | ok200
  | bad400
  | notFound404
  | serverError (e : PyError)
deriving DecidableEq, Repr

/-- Embeds `RecipeViewSet.upload_image` (views.py lines 64-74):
`get_object` resolves the recipe inside the owner-scoped queryset
(404 when absent there), then `self.get_serializer` resolves the
serializer class for the upload_image action; with a serializer in
hand, a valid image gives 200 with the representation and an invalid
one gives 400. An unhandled exception surfaces as a server error. -/
def uploadImage (s : Store) (u : Nat) (pk : Nat) (imageValid : Bool) :
    UploadOutcome :=
  match recipeGetObject s u pk with
  | .error e => .serverError e
  | .ok none => .notFound404
  | .ok (some _) =>
    match getSerializerClass "upload_image" with
    | .error e => .serverError e
    | .ok _ => if imageValid then .ok200 else .bad400

/-- The store a serializer operation leaves behind, on both the normal
and the exceptional path. -/
def storeOf : PyResult (Store × Recipe) → Store
  | .ok (s, _) => s
  | .error _ s => s

/-- The tag association ids of the recipe a successful serializer
operation returns (empty on the exceptional path). -/
def resultTagIds : PyResult (Store × Recipe) → List Nat
  | .ok (_, r) => r.tags
  | .error _ _ => []

/-- Tests whether a serializer operation raised `TypeError`. -/
def isTypeError {α : Type} : PyResult α → Bool
  | .error .typeError _ => true
  | _ => false

/-- Tests whether a conversion succeeded. -/
def isOkResult {α : Type} : Except PyError α → Bool
  | .ok _ => true
  | .error _ => false

/-- The spec-level reading of the tag filter branch, as a predicate on
one recipe: a missing or empty tags parameter imposes nothing, and
otherwise the recipe must carry at least one of the listed tag ids.
The false branch for an unparsable parameter is unreachable on the
normal path, where the view raises instead of returning a list. -/
def passesTagFilter (p : Option String) (r : Recipe) : Bool :=
  match p with
  | none => true
  | some t =>
    if t = "" then true
    else
      match paramsToInts t with
      | .ok ids => r.tags.any (fun tid => ids.contains (Int.ofNat tid))
      | .error _ => false

/-- The spec-level reading of the ingredient filter branch, same shape
as the tag one. -/
def passesIngredientFilter (p : Option String) (r : Recipe) : Bool :=
  match p with
  | none => true
  | some t =>
    if t = "" then true
    else
      match paramsToInts t with
      | .ok ids => r.ingredients.any (fun iid => ids.contains (Int.ofNat iid))
      | .error _ => false

/-- A store with no rows. -/
def store0 : Store := ⟨[], [], [], 1, 1, 1⟩

/-- A create payload referencing the tag name Indian. -/
def indianPayload : CreatePayload :=
  ⟨"Pongal", 60, 450, "", "", some ["Indian"], none⟩

/-- A second create payload by the same owner referencing the same tag
name. -/
def indianPayload2 : CreatePayload :=
  ⟨"Curry", 30, 250, "", "", some ["Indian"], none⟩

/-- A recipe of user 1 associated with ingredient row 5. -/
def saltRecipe : Recipe := ⟨10, 1, "Sample", 22, 555, "", "", [], [5]⟩

/-- A store holding `saltRecipe` and the ingredient row it references. -/
def saltStore : Store := ⟨[saltRecipe], [], [⟨5, 1, "Pepper"⟩], 11, 1, 6⟩

/-- An update payload that provides only ingredientNames. -/
def saltUpdate : UpdatePayload :=
  ⟨none, none, none, none, none, none, some ["Salt"]⟩

/-- An update payload that provides an empty tagNames list and a new
title. -/
def clearTagsUpdate : UpdatePayload :=
  ⟨some "New title", none, none, none, none, some [], none⟩

/-- A store in which user 1 already owns a Tag row named Indian. -/
def preIndianStore : Store := ⟨[], [⟨1, 1, "Indian"⟩], [], 1, 2, 1⟩

/-- A create payload referencing the pre-existing name Indian and the
fresh name Breakfast. -/
def indianBreakfastPayload : CreatePayload :=
  ⟨"Pongal", 60, 450, "", "", some ["Indian", "Breakfast"], none⟩

/-- A create payload referencing one ingredient name. -/
def saltCreatePayload : CreatePayload :=
  ⟨"Soup", 15, 300, "", "", none, some ["Salt"]⟩

/-- A recipe of user 1 carrying tag 1 and no ingredients. -/
def unionRecipe : Recipe := ⟨10, 1, "R", 5, 3, "", "", [1], []⟩

/-- A store holding `unionRecipe`, tag row 1 and ingredient row 2. -/
def unionStore : Store :=
  ⟨[unionRecipe], [⟨1, 1, "T"⟩], [⟨2, 1, "I"⟩], 11, 3, 3⟩

/-- A list request by user 1 filtering on tag id 1 only. -/
def unionReq : RecipeRequest := ⟨1, some "1", none⟩

/-- A recipe owned by user 2. -/
def otherRecipe : Recipe := ⟨1, 2, "Other", 5, 3, "", "", [], []⟩

/-- A recipe owned by user 1. -/
def mineRecipe : Recipe := ⟨2, 1, "Mine", 5, 3, "", "", [], []⟩

/-- A store holding one recipe, tag and ingredient of each of the two
users 1 and 2. -/
def scopeStore : Store :=
  ⟨[otherRecipe, mineRecipe], [⟨1, 1, "A"⟩, ⟨2, 2, "B"⟩],
   [⟨1, 1, "C"⟩, ⟨2, 2, "D"⟩], 3, 3, 3⟩

/-- A list request by user 1 with no filter parameters. -/
def scopeReq : RecipeRequest := ⟨1, none, none⟩

/-- A store holding one recipe, id 10, owned by user 1. -/
def uploadStore : Store :=
  ⟨[⟨10, 1, "R", 5, 3, "", "", [], []⟩], [], [], 11, 1, 1⟩

/-! ## Helper lemmas -/

theorem recipeTagsAdd_user (r : Recipe) (t : Tag) :
    (recipeTagsAdd r t).user = r.user := by
  unfold recipeTagsAdd
  split <;> rfl

theorem getOrCreateTags_user (authUser : Nat) (names : List String) :
    ∀ s r, ((getOrCreateTags authUser names s r).2).user = r.user := by
  induction names with
  | nil => intro s r; rfl
  | cons n rest ih =>
    intro s r
    unfold getOrCreateTags
    rw [ih]
    exact recipeTagsAdd_user r _

theorem setScalarAttrs_user (r : Recipe) (p : UpdatePayload) :
    (setScalarAttrs r p).user = r.user := rfl

theorem setScalarAttrs_tags (r : Recipe) (p : UpdatePayload) :
    (setScalarAttrs r p).tags = r.tags := rfl

theorem storeUpdateRecipe_storeTags (s : Store) (r : Recipe) :
    (storeUpdateRecipe s r).tags = s.tags := rfl

/-! ## Claim theorems -/

/-- C1: the claim states that resolving tag and ingredient names during
recipe creation reuses an existing (owner, name) row and creates a new
row only when zero matches exist, so that two createRecipe calls by the
same owner referencing the same name leave exactly one row. The code
contradicts this (and its own get-or-create docstring): after user 1
creates two recipes that both reference the tag name Indian, the store
holds two Tag rows with owner 1 and name Indian. -/
theorem c1_tag_rows_duplicated :
    ((storeOf (serializerCreate 1 indianPayload2
        (storeOf (serializerCreate 1 indianPayload store0)))).tags.filter
      (fun t => t.user == 1 && t.name == "Indian")).length = 2 := by decide

/-- C2: the claim states that an updateRecipe call providing
ingredientNames clears the ingredient association set and
resolves-or-creates and attaches each name, as is done for tagNames.
The code never pops ingredients in `update`, so the provided value
reaches the `setattr` loop, direct many-to-many assignment raises
`TypeError`, and the store is left untouched: the prior association
(ingredient row 5) is still in place and nothing was attached. -/
theorem c2_update_ingredients_raises :
    serializerUpdate 1 saltRecipe saltUpdate saltStore
      = PyResult.error PyError.typeError saltStore := by decide

/-- C6: the claim states that each tag name is resolved to an existing
owner-scoped Tag by exact name match or newly created, and likewise
for ingredient names. The code never resolves: with Tag row 1
(owner 1, name Indian) already present, creating a recipe with
tagNames [Indian, Breakfast] mints fresh rows 2 and 3 and attaches
those, leaving two Indian rows and not attaching row 1; and creating a
recipe with any nonempty ingredientNames raises `TypeError`, because
the (object, created) pair returned by get_or_create is passed to the
many-to-many add. -/
theorem c6_create_does_not_reuse :
    (((storeOf (serializerCreate 1 indianBreakfastPayload preIndianStore)).tags.filter
        (fun t => t.user == 1 && t.name == "Indian")).length = 2
      ∧ resultTagIds (serializerCreate 1 indianBreakfastPayload preIndianStore) = [2, 3])
    ∧ isTypeError (serializerCreate 1 saltCreatePayload preIndianStore) = true := by decide

/-- C9: the claim states that an authenticated image-upload request to
an owned recipe returns 200 on a valid image and 400 on an invalid one,
with no other outcome. The code reads the attribute
RecipieImageSerializer off the serializers module, which defines no
such class, so every such request raises `AttributeError` and surfaces
as a server error: here user 1 uploads to their own recipe 10 and gets
a server error for a valid and for an invalid image alike. -/
theorem c9_upload_image_server_error :
    uploadImage uploadStore 1 10 true = .serverError .attributeError
    ∧ uploadImage uploadStore 1 10 false = .serverError .attributeError := by decide

/-- C3: for every recipe and every raw update payload — including one
that submits an owner value — the owner of the recipe the update
returns equals the owner before the update: DRF validation drops the
undeclared user field, and `update` never assigns the owner; moreover
any such payload without the (independently broken) ingredients field
succeeds silently rather than erroring on the attempted owner
reassignment. -/
theorem c3_owner_immutable (s : Store) (inst : Recipe) (raw : RawPayload) (u : Nat) :
    (∀ s' r', serializerUpdate u inst (toValidatedData raw) s = .ok (s', r') →
        r'.user = inst.user)
    ∧ (raw.ingredients = none →
        ∃ s' r', serializerUpdate u inst (toValidatedData raw) s = .ok (s', r')
          ∧ r'.user = inst.user) := by
  obtain ⟨t1, t2, t3, t4, t5, tg, ing, us⟩ := raw
  constructor
  · intro s' r' h
    cases ing with
    | some l => cases tg <;> exact PyResult.noConfusion h
    | none =>
      cases tg with
      | none =>
        simp only [serializerUpdate, toValidatedData, PyResult.ok.injEq, Prod.mk.injEq] at h
        rw [← h.2]
        exact setScalarAttrs_user inst _
      | some tagNames =>
        simp only [serializerUpdate, toValidatedData, PyResult.ok.injEq, Prod.mk.injEq] at h
        rw [← h.2, setScalarAttrs_user, getOrCreateTags_user]
  · intro hing
    cases hing
    cases tg with
    | none => exact ⟨_, _, rfl, setScalarAttrs_user inst _⟩
    | some tagNames =>
      simp only [serializerUpdate, toValidatedData]
      refine ⟨_, _, rfl, ?_⟩
      rw [setScalarAttrs_user, getOrCreateTags_user]

/-- C5: updating a recipe with tagNames equal to the empty list
removes all prior tag associations while creating zero Tag rows and
deleting none (the Tag table is unchanged), and a payload without the
tagNames field leaves the tag association set untouched. Payloads are
restricted to ones without the (independently broken) ingredients
field, which would raise before saving. -/
theorem c5_empty_tags_clears (s : Store) (inst : Recipe) (u : Nat) (p : UpdatePayload)
    (hing : p.ingredients = none) :
    (p.tags = some [] →
      ∃ s' r', serializerUpdate u inst p s = .ok (s', r')
        ∧ r'.tags = [] ∧ s'.tags = s.tags)
    ∧ (p.tags = none →
      ∃ s' r', serializerUpdate u inst p s = .ok (s', r')
        ∧ r'.tags = inst.tags ∧ s'.tags = s.tags) := by
  constructor
  · intro htags
    simp only [serializerUpdate, htags, hing, getOrCreateTags]
    exact ⟨_, _, rfl, rfl, rfl⟩
  · intro htags
    simp only [serializerUpdate, htags, hing]
    exact ⟨_, _, rfl, rfl, rfl⟩

/-- Witness for C5 at a concrete store, recipe and payload: the
payload provides an empty tagNames list and a new title. -/
theorem c5_empty_tags_clears_witness :
    (clearTagsUpdate.tags = some [] →
      ∃ s' r', serializerUpdate 1 saltRecipe clearTagsUpdate saltStore = .ok (s', r')
        ∧ r'.tags = [] ∧ s'.tags = saltStore.tags)
    ∧ (clearTagsUpdate.tags = none →
      ∃ s' r', serializerUpdate 1 saltRecipe clearTagsUpdate saltStore = .ok (s', r')
        ∧ r'.tags = saltRecipe.tags ∧ s'.tags = saltStore.tags) :=
  c5_empty_tags_clears saltStore saltRecipe 1 clearTagsUpdate rfl

theorem intListComp_ok_iff (toks : List String) :
    isOkResult (intListComp toks) = true ↔
      ∀ tok ∈ toks, (pyInt? tok).isSome = true := by
  induction toks with
  | nil => simp [intListComp, isOkResult]
  | cons t ts ih =>
    cases hpt : pyInt? t with
    | none =>
      constructor
      · intro h
        exfalso
        simp [intListComp, hpt, isOkResult] at h
      · intro h
        exfalso
        have ht := h t (List.mem_cons_self t ts)
        rw [hpt] at ht
        simp at ht
    | some n =>
      have hstep : isOkResult (intListComp (t :: ts)) = isOkResult (intListComp ts) := by
        simp only [intListComp, hpt]
        cases intListComp ts <;> rfl
      rw [hstep, ih]
      constructor
      · intro h tok htok
        rcases List.mem_cons.mp htok with rfl | hmem
        · rw [hpt]; rfl
        · exact h tok hmem
      · intro h tok htok
        exact h tok (List.mem_cons_of_mem t htok)

theorem applyTagFilter_ok (recipes : List Recipe) (p : Option String) (q : List Recipe)
    (h : applyTagFilter recipes p = .ok q) :
    q = recipes.filter (fun r => passesTagFilter p r) := by
  cases p with
  | none =>
    simp only [applyTagFilter, Except.ok.injEq] at h
    simp [passesTagFilter, ← h]
  | some t =>
    simp only [applyTagFilter] at h
    split at h
    · rename_i ht
      simp only [Except.ok.injEq] at h
      subst h
      simp [passesTagFilter, ht]
    · rename_i ht
      cases hp : paramsToInts t with
      | ok ids =>
        rw [hp] at h
        simp only [Except.ok.injEq] at h
        subst h
        simp [passesTagFilter, ht, hp]
      | error e =>
        rw [hp] at h
        exact Except.noConfusion h

theorem applyIngredientFilter_ok (recipes : List Recipe) (p : Option String)
    (q : List Recipe) (h : applyIngredientFilter recipes p = .ok q) :
    q = recipes.filter (fun r => passesIngredientFilter p r) := by
  cases p with
  | none =>
    simp only [applyIngredientFilter, Except.ok.injEq] at h
    simp [passesIngredientFilter, ← h]
  | some t =>
    simp only [applyIngredientFilter] at h
    split at h
    · rename_i ht
      simp only [Except.ok.injEq] at h
      subst h
      simp [passesIngredientFilter, ht]
    · rename_i ht
      cases hp : paramsToInts t with
      | ok ids =>
        rw [hp] at h
        simp only [Except.ok.injEq] at h
        subst h
        simp [passesIngredientFilter, ht, hp]
      | error e =>
        rw [hp] at h
        exact Except.noConfusion h

theorem recipeGetQueryset_ok_shape (s : Store) (req : RecipeRequest)
    (res : List Recipe) (h : recipeGetQueryset s req = .ok res) :
    ∃ l : List Recipe, res = (l.insertionSort (descBy Recipe.id)).dedup
      ∧ ∀ r, r ∈ l ↔ r ∈ s.recipes
          ∧ passesTagFilter req.tagsParam r = true
          ∧ passesIngredientFilter req.ingredientsParam r = true
          ∧ r.user = req.user := by
  unfold recipeGetQueryset at h
  cases h1 : applyTagFilter s.recipes req.tagsParam with
  | error e => rw [h1] at h; exact Except.noConfusion h
  | ok q1 =>
    simp only [h1] at h
    cases h2 : applyIngredientFilter q1 req.ingredientsParam with
    | error e => rw [h2] at h; exact Except.noConfusion h
    | ok q2 =>
      simp only [h2, Except.ok.injEq] at h
      subst h
      refine ⟨q2.filter (fun r => r.user == req.user), rfl, ?_⟩
      intro r
      have e1 := applyTagFilter_ok _ _ _ h1
      have e2 := applyIngredientFilter_ok _ _ _ h2
      subst e2
      subst e1
      simp only [List.mem_filter, beq_iff_eq]
      tauto

/-- C4: owner scoping of every list and detail query: a recipe list
response only holds recipes of the requesting user, the tag and
ingredient lists only hold rows of the requesting user, and a
by-id lookup for a recipe that no row owned by the requester has
(whether it is absent or owned by another user) resolves to none and
so surfaces as NotFound either way. -/
theorem c4_owner_scoping (s : Store) (req : RecipeRequest) (res : List Recipe)
    (h : recipeGetQueryset s req = .ok res) :
    (∀ r ∈ res, r.user = req.user)
    ∧ (∀ u, (∀ t ∈ tagGetQueryset s u, t.user = u)
          ∧ (∀ i ∈ ingredientGetQueryset s u, i.user = u))
    ∧ (∀ u pk, (∀ r ∈ s.recipes, r.id = pk → r.user ≠ u) →
        recipeGetObject s u pk = .ok none) := by
  obtain ⟨l, hres, hmem⟩ := recipeGetQueryset_ok_shape s req res h
  refine ⟨?_, ?_, ?_⟩
  · intro r hr
    rw [hres] at hr
    have hl : r ∈ l := (List.mem_insertionSort _).mp (List.mem_dedup.mp hr)
    exact ((hmem r).mp hl).2.2.2
  · intro u
    constructor
    · intro t ht
      simp only [tagGetQueryset, List.mem_insertionSort, List.mem_filter,
        beq_iff_eq] at ht
      exact ht.2
    · intro i hi
      simp only [ingredientGetQueryset, List.mem_insertionSort, List.mem_filter,
        beq_iff_eq] at hi
      exact hi.2
  · intro u pk hnone
    show Except.map _ (recipeGetQueryset s ⟨u, none, none⟩) = .ok none
    have hq : recipeGetQueryset s ⟨u, none, none⟩ =
        .ok (((s.recipes.filter (fun r => r.user == u)).insertionSort
          (descBy Recipe.id)).dedup) := rfl
    rw [hq]
    simp only [Except.map, Except.ok.injEq]
    rw [List.find?_eq_none]
    intro x hx
    simp only [List.mem_dedup, List.mem_insertionSort, List.mem_filter,
      beq_iff_eq] at hx
    simp only [beq_iff_eq]
    intro hid
    exact hnone x hx.1 hid hx.2

/-- C7 counterexample: the claim reads the response as the set of the
requesting user recipes matching ANY of the given ids. With both
parameters given (tags 1, ingredients 2), `unionRecipe` is owned by
the requester and carries tag id 1 — one of the given ids — yet the
response is empty, because the two parameter conditions are conjoined
rather than unioned. -/
theorem c7_filter_counterexample :
    recipeGetQueryset unionStore ⟨1, some "1", some "2"⟩ = .ok []
    ∧ unionRecipe ∈ unionStore.recipes
    ∧ unionRecipe.user = 1
    ∧ (1 : Nat) ∈ unionRecipe.tags :=
  ⟨rfl, by decide, rfl, by decide⟩

/-- C7 as amended: each of the tags and ingredients parameters is
parsed as comma-separated integer ids; within one parameter a recipe
matches if it carries ANY of the listed ids (set union), and when both
parameters are present the two conditions are conjoined; the response
holds exactly the requesting user recipes satisfying every provided
condition, with no recipe appearing twice. -/
theorem c7_filter_semantics (s : Store) (req : RecipeRequest) (res : List Recipe)
    (h : recipeGetQueryset s req = .ok res) :
    (∀ r, r ∈ res ↔ r ∈ s.recipes ∧ r.user = req.user
        ∧ passesTagFilter req.tagsParam r = true
        ∧ passesIngredientFilter req.ingredientsParam r = true)
    ∧ res.Nodup := by
  obtain ⟨l, hres, hmem⟩ := recipeGetQueryset_ok_shape s req res h
  constructor
  · intro r
    rw [hres, List.mem_dedup, List.mem_insertionSort, hmem r]
    tauto
  · rw [hres]
    exact List.nodup_dedup _

/-- Witness for the amended C7 at a concrete store and request:
filtering on tag id 1 returns exactly the one matching owned recipe. -/
theorem c7_filter_semantics_witness :
    (∀ r, r ∈ [unionRecipe] ↔ r ∈ unionStore.recipes ∧ r.user = unionReq.user
        ∧ passesTagFilter unionReq.tagsParam r = true
        ∧ passesIngredientFilter unionReq.ingredientsParam r = true)
    ∧ List.Nodup [unionRecipe] :=
  c7_filter_semantics unionStore unionReq [unionRecipe] rfl

/-- C8: every successful recipe list response is ordered by descending
recipe identifier, and the tag and ingredient lists are each ordered
by descending name (lexicographically on their characters). -/
theorem c8_list_ordering (s : Store) (req : RecipeRequest) (res : List Recipe)
    (h : recipeGetQueryset s req = .ok res) :
    res.Sorted (descBy Recipe.id)
    ∧ ∀ u, (tagGetQueryset s u).Sorted (descBy (fun t => t.name.data))
        ∧ (ingredientGetQueryset s u).Sorted (descBy (fun i => i.name.data)) := by
  obtain ⟨l, hres, _⟩ := recipeGetQueryset_ok_shape s req res h
  constructor
  · rw [hres]
    exact List.Pairwise.sublist (List.dedup_sublist _) (List.sorted_insertionSort _ _)
  · intro u
    exact ⟨List.sorted_insertionSort _ _, List.sorted_insertionSort _ _⟩

/-- Witness for C8 at a concrete store and request. -/
theorem c8_list_ordering_witness :
    List.Sorted (descBy Recipe.id) [mineRecipe]
    ∧ ∀ u, (tagGetQueryset scopeStore u).Sorted (descBy (fun t => t.name.data))
        ∧ (ingredientGetQueryset scopeStore u).Sorted (descBy (fun i => i.name.data)) :=
  c8_list_ordering scopeStore scopeReq [mineRecipe] rfl

/-- Witness for C4 at a concrete store holding rows of two users. -/
theorem c4_owner_scoping_witness :
    (∀ r ∈ [mineRecipe], r.user = scopeReq.user)
    ∧ (∀ u, (∀ t ∈ tagGetQueryset scopeStore u, t.user = u)
          ∧ (∀ i ∈ ingredientGetQueryset scopeStore u, i.user = u))
    ∧ (∀ u pk, (∀ r ∈ scopeStore.recipes, r.id = pk → r.user ≠ u) →
        recipeGetObject scopeStore u pk = .ok none) :=
  c4_owner_scoping scopeStore scopeReq [mineRecipe] rfl

/-- C10: the parameter conversion of the recipe list endpoint raises
an unhandled exception on a token that is not a decimal integer (for
example the token abc, or the empty token a trailing comma leaves) and
succeeds exactly on comma-separated sequences of integer literals. -/
theorem c10_params_to_ints_totality :
    paramsToInts "abc" = .error .valueError
    ∧ paramsToInts "1," = .error .valueError
    ∧ paramsToInts "1,23" = .ok [1, 23]
    ∧ ∀ qs : String, isOkResult (paramsToInts qs) = true ↔
        ∀ tok ∈ pySplit qs, (pyInt? tok).isSome = true :=
  ⟨rfl, rfl, rfl, fun qs => intListComp_ok_iff (pySplit qs)⟩

end RecipeApp
